import Mathlib

/-!
Shallow embedding of `streamlit_app.py` (a Streamlit app that extracts text
from an uploaded PDF or Excel file and converts it to XBRL via the Gemini
API), together with theorems settling the specification claims.

The Python side effects are made explicit:
  * `st.error` calls become lists of emitted error message strings;
  * an exception propagating out of a function becomes a `raised` constructor;
  * third-party library calls (PyPDF2 page extraction, pandas sheet parsing,
    the Gemini service call) become explicit inputs describing the library's
    result on the uploaded bytes.
-/

namespace XbrlApp

/-! ## PDF extraction (`extract_text_from_pdf`, lines 16-27)

A parsed PDF is the list of its pages; `page.extract_text()` yields
`Option String` (`none` when the page has no text layer).  `PyPDF2.PdfReader`
itself may raise on unparseable input: the uploaded file is modelled as
`Except String (List (Option String))`, where `.error e` means the reader
raises exception `e`.  Note that in the source only the `import PyPDF2`
statement sits inside a `try`; the `PdfReader` call does not. -/

/-- Result of running `extract_text_from_pdf`: either the function returns
(having emitted the listed `st.error` messages), or an exception propagates
to the caller. -/
inductive PdfResult where
  | returned (errors : List String) (text : String)
  | raised (e : String)
  deriving DecidableEq, Repr

/-- Embedding of `extract_text_from_pdf`.  `pypdf2Available` is whether
`import PyPDF2` succeeds; `f` is the `PdfReader` outcome on the uploaded
file.  The page loop `text += page.extract_text() or ""` is a left fold. -/
def extract_text_from_pdf (pypdf2Available : Bool)
    (f : Except String (List (Option String))) : PdfResult :=
  if pypdf2Available = false then
    .returned ["PyPDF2 is not installed. Please run `pip install PyPDF2`."] ""
  else
    match f with
    | .error e => .raised e
    | .ok pages => .returned [] (pages.foldl (fun acc p => acc ++ p.getD "") "")

/-- Specification-side description of the PDF output: the ordered
concatenation of each page's text, a page without a text layer contributing
the empty string. -/
def concatPages (pages : List (Option String)) : String :=
  pages.foldr (fun p acc => p.getD "" ++ acc) ""

/-! ## Excel extraction (`extract_text_from_excel`, lines 29-41) -/

/-- One spreadsheet sheet: its name, its column-header row and its data rows,
all cells already rendered as strings (the cell-to-text rendering is done by
pandas, outside this repository). -/
structure Sheet where
  name : String
  header : List String
  rows : List (List String)
  deriving DecidableEq, Repr

/-- Modelled from the spec: pandas `DataFrame.to_csv(index=False)` renders
the column-header row followed by the data rows, each row comma-separated
and newline-terminated, with no index column.  (pandas is a third-party
library; its rendering is not part of this repository's source.) -/
def to_csv (s : Sheet) : String :=
  ((s.header :: s.rows).map (fun r => String.intercalate "," r ++ "\n")).foldr
    (· ++ ·) ""

/-- Embedding of `extract_text_from_excel`.  The whole body sits inside a
`try`, so the function never raises: it returns the emitted `st.error`
messages together with the returned string.  The input is the outcome of
`pd.ExcelFile`/`xl.parse` on the uploaded file: `.error e` when parsing
raises exception `e`, otherwise the list of sheets in file order. -/
def extract_text_from_excel (f : Except String (List Sheet)) :
    List String × String :=
  match f with
  | .error e => (["Failed to read Excel file: " ++ e], "")
  | .ok sheets =>
      ([], sheets.foldl (fun acc s => acc ++ ("Sheet: " ++ s.name ++ "\n") ++ to_csv s) "")

/-- Specification-side description of the Excel output: for every sheet in
file order, the header line `Sheet: <name>` followed by that sheet's CSV
rendering. -/
def concatSheets (sheets : List Sheet) : String :=
  sheets.foldr (fun s acc => "Sheet: " ++ s.name ++ "\n" ++ to_csv s ++ acc) ""

/-! ## Download link (`download_button`, lines 61-64)

`base64.b64encode(xml_content.encode()).decode()` base64-encodes the UTF-8
bytes of the output string; the result is spliced into a data-URI anchor.
The base64 codec is embedded below (RFC 4648 with `=` padding, as the
Python `base64` module implements it). -/

/-- The standard base64 alphabet, in value order. -/
def base64Alphabet : List Char :=
  ['A', 'B', 'C', 'D', 'E', 'F', 'G', 'H', 'I', 'J', 'K', 'L', 'M',
   'N', 'O', 'P', 'Q', 'R', 'S', 'T', 'U', 'V', 'W', 'X', 'Y', 'Z',
   'a', 'b', 'c', 'd', 'e', 'f', 'g', 'h', 'i', 'j', 'k', 'l', 'm',
   'n', 'o', 'p', 'q', 'r', 's', 't', 'u', 'v', 'w', 'x', 'y', 'z',
   '0', '1', '2', '3', '4', '5', '6', '7', '8', '9', '+', '/']

/-- The base64 digit for a 6-bit value. -/
def b64c (n : Nat) : Char := base64Alphabet.getD n 'A'

/-- Index of a character in a list of characters, if present. -/
def findIdx : Char → List Char → Option Nat
  | _, [] => none
  | ch, c :: cs => if c = ch then some 0 else (findIdx ch cs).map (· + 1)

/-- The 6-bit value of a base64 digit, if it is one. -/
def b64v (ch : Char) : Option Nat := findIdx ch base64Alphabet

/-- Base64 encoding of a byte list (bytes as `Nat < 256`), three bytes to
four digits, with `=` padding on a final group of one or two bytes. -/
def base64EncodeL : List Nat → List Char
  | [] => []
  | [a] => [b64c (a / 4), b64c (a % 4 * 16), '=', '=']
  | [a, b] => [b64c (a / 4), b64c (a % 4 * 16 + b / 16), b64c (b % 16 * 4), '=']
  | a :: b :: c :: rest =>
      b64c (a / 4) :: b64c (a % 4 * 16 + b / 16) :: b64c (b % 16 * 4 + c / 64) ::
        b64c (c % 64) :: base64EncodeL rest

/-- Base64 decoding: inverse of `base64EncodeL`; `none` on input that is not
well-formed base64. -/
def base64DecodeL : List Char → Option (List Nat)
  | [] => some []
  | c0 :: c1 :: c2 :: c3 :: rest =>
      match b64v c0, b64v c1 with
      | some v0, some v1 =>
          if c3 = '=' then
            if rest = [] then
              if c2 = '=' then
                if v1 % 16 = 0 then some [v0 * 4 + v1 / 16] else none
              else
                match b64v c2 with
                | some v2 =>
                    if v2 % 4 = 0 then
                      some [v0 * 4 + v1 / 16, v1 % 16 * 16 + v2 / 4]
                    else none
                | none => none
            else none
          else
            match b64v c2, b64v c3, base64DecodeL rest with
            | some v2, some v3, some tail =>
                some ((v0 * 4 + v1 / 16) :: (v1 % 16 * 16 + v2 / 4) ::
                  (v2 % 4 * 64 + v3) :: tail)
            | _, _, _ => none
      | _, _ => none
  | _ => none

/-- The UTF-8 bytes of a string, as `Nat`s (Python `str.encode()`). -/
def strBytes (s : String) : List Nat := s.toUTF8.toList.map (fun u => u.toNat)

/-- The base64 payload that `download_button` embeds in the link:
`base64.b64encode(xml_content.encode()).decode()`. -/
def download_button_payload (xml_content : String) : String :=
  ⟨base64EncodeL (strBytes xml_content)⟩

/-- Embedding of `download_button`: the HTML anchor string passed to
`st.markdown`, a data URI carrying the base64 payload. -/
def download_button_href (xml_content filename : String) : String :=
  "<a href=\"data:text/xml;base64," ++ download_button_payload xml_content ++
    "\" download=\"" ++ filename ++ "\">Download XBRL Output</a>"

/-! ## Preview rendering (lines 92 and 100)

`st.code(t[:2000] + ("\n... (truncated)" if len(t) > 2000 else ""))`:
Python string slicing counts characters (code points), as does
`String.take`. -/

/-- The string rendered by the preview `st.code` calls. -/
def preview (t : String) : String :=
  t.take 2000 ++ (if t.length > 2000 then "\n... (truncated)" else "")

/-! ## Gemini conversion (`generate_xbrl_with_gemini`, lines 43-59)

The external service is modelled as a function from the prompt to
`Except String String`: `.ok t` when `model.generate_content` returns a
response with text `t`, `.error e` when the call raises exception `e`.
The `try` in the source catches every exception and returns `None`, so the
function itself never raises. -/

/-- The fixed instruction template, with the extracted text interpolated. -/
def gemini_prompt (input_text : String) : String :=
  "You are an expert in financial data and XBRL conversion. " ++
  "Convert the following data into valid XBRL XML format. " ++
  "If the data is a financial table, infer the correct tags and contexts. " ++
  "If the data is textual, extract relevant financial facts and represent them in XBRL. " ++
  "Output only the XBRL XML. Here is the input:\n\n" ++ input_text

/-- Embedding of `generate_xbrl_with_gemini`: the emitted `st.error`
messages and the returned value (`none` models Python `None`). -/
def generate_xbrl_with_gemini (input_text : String)
    (service : String → Except String String) : List String × Option String :=
  match service (gemini_prompt input_text) with
  | .ok t => ([], some t)
  | .error e => (["Error during XBRL generation: " ++ e], none)

/-! ## UI flow (lines 77-105) -/

/-- MIME type accepted for PDF routing. -/
def pdfMime : String := "application/pdf"

/-- MIME type of `.xlsx` uploads. -/
def xlsxMime : String := "application/vnd.openxmlformats-officedocument.spreadsheetml.sheet"

/-- MIME type of `.xls` uploads. -/
def xlsMime : String := "application/vnd.ms-excel"

/-- An uploaded file as the extraction stage sees it: its declared MIME
type, what `PyPDF2.PdfReader` would give on its bytes, what
`pd.ExcelFile` would give on its bytes, and whether PyPDF2 imports. -/
structure AppInput where
  filetype : String
  pdfParse : Except String (List (Option String))
  excelParse : Except String (List Sheet)
  pypdf2Available : Bool

/-- Outcome of the extraction stage (lines 81-88): either an exception
propagates (only the PDF path can raise), or the stage completes with the
emitted error messages and the value bound to `input_text` (`none` models
the `input_text = None` of the unsupported-type branch). -/
inductive ExtractOutcome where
  | raised (e : String)
  | done (errors : List String) (input_text : Option String)
  deriving DecidableEq, Repr

/-- How a PDF-extractor result surfaces in the extraction stage: a raised
exception keeps propagating, a return binds `input_text`. -/
def pdfOutcome : PdfResult → ExtractOutcome
  | .raised e => .raised e
  | .returned errs t => .done errs (some t)

/-- Embedding of the `if filetype == ...` dispatch, lines 82-88. -/
def extraction_stage (a : AppInput) : ExtractOutcome :=
  if a.filetype = pdfMime then
    match extract_text_from_pdf a.pypdf2Available a.pdfParse with
    | .raised e => .raised e
    | .returned errs t => .done errs (some t)
  else if a.filetype = xlsxMime ∨ a.filetype = xlsMime then
    let r := extract_text_from_excel a.excelParse
    .done r.1 (some r.2)
  else
    .done ["Unsupported file type."] none

/-- Embedding of the `if input_text:` guard, lines 90-105: whether the
conversion UI (preview and Convert button) is offered, and the error
messages emitted otherwise.  Python truthiness: `None` and `""` are falsy. -/
def post_extraction (input_text : Option String) : Bool × List String :=
  match input_text with
  | none => (false, ["Failed to extract data from the uploaded file."])
  | some t =>
      if t = "" then (false, ["Failed to extract data from the uploaded file."])
      else (true, [])

/-- What the conversion branch renders, lines 94-103. -/
structure RenderOutput where
  errors : List String
  outputPreview : Option String
  downloadHref : Option String
  deriving DecidableEq, Repr

/-- Embedding of the Convert-button handler (lines 94-103): call
`generate_xbrl_with_gemini`, then `if xbrl_output:` render the preview and
the download link.  `None` and `""` are falsy, so on either nothing is
rendered; the handler's own `except` is unreachable because
`generate_xbrl_with_gemini` catches internally. -/
def convert_stage (input_text : String)
    (service : String → Except String String) : RenderOutput :=
  let r := generate_xbrl_with_gemini input_text service
  match r.2 with
  | some t =>
      if t = "" then
        { errors := r.1, outputPreview := none, downloadHref := none }
      else
        { errors := r.1, outputPreview := some (preview t),
          downloadHref := some (download_button_href t "converted_output.xbrl") }
  | none => { errors := r.1, outputPreview := none, downloadHref := none }

/-! ## Helper lemmas -/

/-- The page loop's left fold equals `init` followed by the right-fold
concatenation of the pages' texts. -/
theorem foldl_pages_eq (pages : List (Option String)) (init : String) :
    pages.foldl (fun acc p => acc ++ p.getD "") init = init ++ concatPages pages := by
  induction pages generalizing init with
  | nil => simp [concatPages]
  | cons p ps ih => simp [concatPages, List.foldl_cons, ih, String.append_assoc]

/-- The sheet loop's left fold equals `init` followed by the right-fold
concatenation of the sheets' renderings. -/
theorem foldl_sheets_eq (sheets : List Sheet) (init : String) :
    sheets.foldl (fun acc s => acc ++ ("Sheet: " ++ s.name ++ "\n") ++ to_csv s) init
      = init ++ concatSheets sheets := by
  induction sheets generalizing init with
  | nil => simp [concatSheets]
  | cons s ss ih =>
      rw [List.foldl_cons, ih]
      simp [concatSheets, String.append_assoc]

/-- C1: for a PDF that PyPDF2 parses (library available), the extractor
returns, with no error emitted, the ordered concatenation of each page's
extracted text in page order with no inter-page delimiter, a page lacking a
text layer (`extract_text()` yielding `None`) contributing the empty
string. -/
theorem extract_pdf_concatenates (pages : List (Option String)) :
    extract_text_from_pdf true (.ok pages) = .returned [] (concatPages pages) := by
  simp [extract_text_from_pdf, foldl_pages_eq]

/-- C2: for every successfully parsed spreadsheet, the extractor emits, for
every sheet in file order, the header line `Sheet: <name>` immediately
followed by that sheet's comma-separated rendering (header row included, no
index column); in particular the one-sheet example `Q1` with header
`Revenue,Cost` and row `100,40` yields `Sheet: Q1\nRevenue,Cost\n100,40\n`. -/
theorem extract_excel_sheets :
    (∀ sheets, extract_text_from_excel (.ok sheets) = ([], concatSheets sheets)) ∧
    extract_text_from_excel
        (.ok [{ name := "Q1", header := ["Revenue", "Cost"], rows := [["100", "40"]] }]) =
      ([], "Sheet: Q1\nRevenue,Cost\n100,40\n") := by
  constructor
  · intro sheets
    show (_, sheets.foldl (fun acc s => acc ++ ("Sheet: " ++ s.name ++ "\n") ++ to_csv s) "")
      = ((_, concatSheets sheets) : List String × String)
    rw [foldl_sheets_eq, String.empty_append]
  · decide

/-- C5 counterexample: with PyPDF2 installed but the file unparseable,
`extract_text_from_pdf` does not emit an error and return the empty
string — the `PdfReader` exception propagates to the caller (only the
`import` is inside the `try`). -/
theorem pdf_parse_error_raises :
    extract_text_from_pdf true (.error "EOF marker not found") =
      .raised "EOF marker not found" ∧
    ¬ ∃ errs, extract_text_from_pdf true (.error "EOF marker not found") =
      .returned errs "" := by
  refine ⟨rfl, ?_⟩
  rintro ⟨errs, h⟩
  simp [extract_text_from_pdf] at h

/-- C5 amended: only the missing-library failure is handled inside
`extract_text_from_pdf` — when PyPDF2 is unavailable an error is emitted and
the empty string returned with no exception; when the library is available
but the file is unparseable, the parse exception propagates to the caller. -/
theorem pdf_error_handling (f : Except String (List (Option String))) (e : String) :
    extract_text_from_pdf false f =
      .returned ["PyPDF2 is not installed. Please run `pip install PyPDF2`."] "" ∧
    extract_text_from_pdf true (.error e) = .raised e :=
  ⟨rfl, rfl⟩

/-- C6: every parse error in `extract_text_from_excel` is caught rather
than propagated: the function returns (never raises), reports one
user-facing error message, and yields the empty string. -/
theorem excel_error_handling (e : String) :
    extract_text_from_excel (.error e) = (["Failed to read Excel file: " ++ e], "") :=
  rfl

/-- Looking up a base64 digit recovers its 6-bit value. -/
theorem b64v_b64c : ∀ n < 64, b64v (b64c n) = some n := by decide

/-- No base64 digit is the padding character. -/
theorem b64c_ne_pad : ∀ n < 64, b64c n ≠ '=' := by decide

/-- Decoding inverts encoding on any list of bytes. -/
theorem base64_roundtrip (bs : List Nat) :
    (∀ x ∈ bs, x < 256) → base64DecodeL (base64EncodeL bs) = some bs := by
  induction bs using base64EncodeL.induct with
  | case1 => intro _; rfl
  | case2 a =>
      intro h
      have ha : a < 256 := h a (by simp)
      have h0 : a / 4 < 64 := by omega
      have h1 : a % 4 * 16 < 64 := by omega
      simp only [base64EncodeL, base64DecodeL, b64v_b64c _ h0, b64v_b64c _ h1,
        Nat.mul_mod_left, if_pos rfl]
      simp only [reduceIte, Option.some.injEq, List.cons.injEq, and_true]
      omega
  | case3 a b =>
      intro h
      have ha : a < 256 := h a (by simp)
      have hb : b < 256 := h b (by simp)
      have h0 : a / 4 < 64 := by omega
      have h1 : a % 4 * 16 + b / 16 < 64 := by omega
      have h2 : b % 16 * 4 < 64 := by omega
      simp only [base64EncodeL, base64DecodeL, b64v_b64c _ h0, b64v_b64c _ h1,
        b64v_b64c _ h2, if_neg (b64c_ne_pad _ h2), Nat.mul_mod_left, if_pos rfl]
      simp only [reduceIte, Option.some.injEq, List.cons.injEq, and_true]
      constructor <;> omega
  | case4 a b c rest ih =>
      intro h
      have ha : a < 256 := h a (by simp)
      have hb : b < 256 := h b (by simp)
      have hc : c < 256 := h c (by simp)
      have htail := ih (fun x hx => h x (by simp [hx]))
      have h0 : a / 4 < 64 := by omega
      have h1 : a % 4 * 16 + b / 16 < 64 := by omega
      have h2 : b % 16 * 4 + c / 64 < 64 := by omega
      have h3 : c % 64 < 64 := by omega
      simp only [base64EncodeL, base64DecodeL, b64v_b64c _ h0, b64v_b64c _ h1,
        b64v_b64c _ h2, b64v_b64c _ h3, if_neg (b64c_ne_pad _ h3), htail,
        Option.some.injEq, List.cons.injEq, and_true]
      refine ⟨by omega, by omega, by omega⟩

/-- Every UTF-8 byte of a string is below 256. -/
theorem strBytes_lt (s : String) : ∀ x ∈ strBytes s, x < 256 := by
  intro x hx
  simp only [strBytes, List.mem_map] at hx
  obtain ⟨u, _, rfl⟩ := hx
  exact UInt8.toNat_lt_size u

/-- C3: base64-decoding the payload that `download_button` embeds in the
rendered data-URI link reproduces the UTF-8 bytes of the generated output
string exactly, byte for byte (hence, as the byte sequence determines the
text, the decoded text is the output string). -/
theorem download_payload_roundtrip (s : String) :
    base64DecodeL (download_button_payload s).data = some (strBytes s) :=
  base64_roundtrip (strBytes s) (strBytes_lt s)

/-- Taking a prefix of a replicated list replicates the smaller count. -/
theorem take_replicate_min (a : Char) :
    ∀ (m n : Nat), List.take m (List.replicate n a) = List.replicate (min m n) a := by
  intro m
  induction m with
  | zero => intro n; simp
  | succ m ih =>
      intro n
      cases n with
      | zero => simp
      | succ n =>
          rw [List.replicate_succ, List.take_succ_cons, ih, Nat.succ_min_succ,
            List.replicate_succ]

/-- C4: the preview rendered by the `st.code` calls equals the text itself
when it has at most 2000 characters, and its first 2000 characters followed
by the truncation marker when longer; in particular a 3000-character text is
shown as exactly its first 2000 characters plus the marker, and a
1500-character text is shown whole. -/
theorem preview_truncation :
    (∀ t : String, preview t =
        if t.length ≤ 2000 then t else t.take 2000 ++ "\n... (truncated)") ∧
    preview ⟨List.replicate 3000 'a'⟩ =
      String.mk (List.replicate 2000 'a') ++ "\n... (truncated)" ∧
    preview ⟨List.replicate 1500 'a'⟩ = ⟨List.replicate 1500 'a'⟩ := by
  have main : ∀ t : String, preview t =
      if t.length ≤ 2000 then t else t.take 2000 ++ "\n... (truncated)" := by
    intro t
    by_cases h : t.length ≤ 2000
    · rw [if_pos h]
      show t.take 2000 ++ (if t.length > 2000 then "\n... (truncated)" else "") = t
      rw [if_neg (by omega), String.append_empty, String.take_eq,
        List.take_of_length_le (by cases t with | mk d => simpa using h)]
    · rw [if_neg h]
      show t.take 2000 ++ (if t.length > 2000 then "\n... (truncated)" else "") =
        t.take 2000 ++ "\n... (truncated)"
      rw [if_pos (by omega)]
  refine ⟨main, ?_, ?_⟩
  · have hlen : (String.mk (List.replicate 3000 'a')).length = 3000 := by
      rw [String.length_mk, List.length_replicate]
    have hdata : (String.mk (List.replicate 3000 'a')).data.take 2000 =
        List.replicate 2000 'a' := by
      show (List.replicate 3000 'a').take 2000 = List.replicate 2000 'a'
      rw [take_replicate_min, min_eq_left (by omega)]
    rw [main, if_neg (by rw [hlen]; omega), String.take_eq, hdata]
  · rw [main, if_pos (by rw [String.length_mk, List.length_replicate]; omega)]

/-- C7: the router dispatches on the declared MIME type with exactly three
outcomes — the PDF MIME type hands the file to the PDF extractor, either
recognized spreadsheet MIME type hands it to the spreadsheet extractor, and
any other declared type emits the unsupported-type error with no extraction
attempted (the outcome is independent of the file's contents). -/
theorem dispatch_three_outcomes (a : AppInput) :
    (a.filetype = pdfMime →
      extraction_stage a =
        pdfOutcome (extract_text_from_pdf a.pypdf2Available a.pdfParse)) ∧
    (a.filetype = xlsxMime ∨ a.filetype = xlsMime →
      extraction_stage a =
        .done (extract_text_from_excel a.excelParse).1
          (some (extract_text_from_excel a.excelParse).2)) ∧
    (a.filetype ≠ pdfMime → a.filetype ≠ xlsxMime → a.filetype ≠ xlsMime →
      extraction_stage a = .done ["Unsupported file type."] none) := by
  refine ⟨fun h1 => ?_, fun h2 => ?_, fun h1 h2 h3 => ?_⟩
  · rw [extraction_stage, if_pos h1]
    cases extract_text_from_pdf a.pypdf2Available a.pdfParse <;> rfl
  · have h1 : a.filetype ≠ pdfMime := by
      rcases h2 with h | h <;> rw [h] <;> decide
    rw [extraction_stage, if_neg h1, if_pos h2]
  · rw [extraction_stage, if_neg h1, if_neg (by rintro (h | h) <;> contradiction)]

/-- Concrete runs of the router: each of the three MIME outcomes observed
on an explicit input. -/
theorem dispatch_three_outcomes_witness :
    extraction_stage
        { filetype := "application/pdf", pdfParse := .ok [some "x"],
          excelParse := .ok [], pypdf2Available := true } = .done [] (some "x") ∧
    extraction_stage
        { filetype := "application/vnd.ms-excel", pdfParse := .ok [],
          excelParse := .ok [], pypdf2Available := true } = .done [] (some "") ∧
    extraction_stage
        { filetype := "text/plain", pdfParse := .ok [], excelParse := .ok [],
          pypdf2Available := true } = .done ["Unsupported file type."] none :=
  ⟨(dispatch_three_outcomes _).1 rfl,
   (dispatch_three_outcomes _).2.1 (Or.inr rfl),
   (dispatch_three_outcomes _).2.2 (by decide) (by decide) (by decide)⟩

/-- C8: when extraction yields the empty string, the `if input_text:` guard
(Python truthiness) reports the extraction failure and never offers the
AI-conversion step for that interaction. -/
theorem empty_extraction_blocks_conversion :
    post_extraction (some "") =
      (false, ["Failed to extract data from the uploaded file."]) :=
  rfl

/-- C9: when the AI-service call raises any exception,
`generate_xbrl_with_gemini` returns `None` after reporting the failure, and
the conversion branch renders neither an output preview nor a download
link. -/
theorem gemini_error_no_link (input e : String)
    (service : String → Except String String)
    (h : service (gemini_prompt input) = .error e) :
    generate_xbrl_with_gemini input service =
      (["Error during XBRL generation: " ++ e], none) ∧
    convert_stage input service =
      { errors := ["Error during XBRL generation: " ++ e],
        outputPreview := none, downloadHref := none } := by
  have hg : generate_xbrl_with_gemini input service =
      (["Error during XBRL generation: " ++ e], none) := by
    rw [generate_xbrl_with_gemini, h]
  exact ⟨hg, by rw [convert_stage, hg]⟩

/-- Concrete run of a failing service call: the error is reported and
nothing is rendered. -/
theorem gemini_error_no_link_witness :
    convert_stage "data" (fun _ => .error "quota exceeded") =
      { errors := ["Error during XBRL generation: quota exceeded"],
        outputPreview := none, downloadHref := none } :=
  (gemini_error_no_link "data" "quota exceeded" (fun _ => .error "quota exceeded") rfl).2

/-- C10: when the AI-service call succeeds but returns the empty string,
`generate_xbrl_with_gemini` returns that empty string (not `None`), and the
UI renders neither the output preview nor a download link nor any error
message — the interaction ends silently. -/
theorem gemini_empty_silent (input : String)
    (service : String → Except String String)
    (h : service (gemini_prompt input) = .ok "") :
    generate_xbrl_with_gemini input service = ([], some "") ∧
    convert_stage input service =
      { errors := [], outputPreview := none, downloadHref := none } := by
  have hg : generate_xbrl_with_gemini input service = ([], some "") := by
    rw [generate_xbrl_with_gemini, h]
  exact ⟨hg, by rw [convert_stage, hg]; rfl⟩

/-- Concrete run of a service call returning empty text: nothing at all is
rendered, not even an error. -/
theorem gemini_empty_silent_witness :
    generate_xbrl_with_gemini "data" (fun _ => .ok "") = ([], some "") ∧
    convert_stage "data" (fun _ => .ok "") =
      { errors := [], outputPreview := none, downloadHref := none } :=
  gemini_empty_silent "data" (fun _ => .ok "") rfl

end XbrlApp
